import Mathlib

/-!
Verification development for the tg-free-cloud synchronization engine.

Shallow embedding of the core components described in the specification:
the signature codec (`make_sig` in `tgcloud/utils.py`), the persistent
metadata store (`MetadataDB` in `tgcloud/core/models.py`), the
dual-endpoint transfer router (`DualTelegramClient` in
`tgcloud/telegram/dual_client.py`), and the upload worker pool
(`UploadPool` in `tgcloud/workers/upload_pool.py`).

Modelling conventions:
* Python numbers: file sizes are `ℕ`, timestamps (`time.time()`,
  `st_mtime`) are `ℚ` (every IEEE float is a rational, and the only
  arithmetic performed on them here is subtraction, comparison and
  `int(...)` truncation, all of which are exact on the rationals),
  message ids are `ℤ`.
* Python `None` becomes `Option`; Python truthiness of optional
  strings/ints is modelled explicitly (`truthyStr`, `truthyInt`).
* Filesystem and network effects are modelled by explicit parameters:
  a `PathView` records what the worker observes about a path, and the
  outcome of a remote call is an oracle argument.  Dictionary update is
  modelled by consing onto an association list (`List.lookup` returns
  the first, i.e. most recent, binding).
-/

namespace TgCloud

/-! ## Decimal rendering of numbers (Python f-string interpolation) -/

/-- Decimal rendering of a natural number as a list of characters,
exactly what Python's `f"{n}"` produces for a nonnegative `int`.
`Nat.digits 10 n` is the little-endian digit list, so the rendered
string is its reverse, with the special case `0 ↦ "0"`. -/
def natReprChars (n : ℕ) : List Char :=
  if n = 0 then ['0'] else ((Nat.digits 10 n).map Nat.digitChar).reverse

/-- Decimal rendering of an integer: a leading minus sign for negative
values, exactly what Python's `f"{i}"` produces. -/
def intReprChars (i : ℤ) : List Char :=
  if i < 0 then '-' :: natReprChars i.natAbs else natReprChars i.natAbs

/-- Python's `int(x)` on a float: truncation toward zero. -/
def pyTrunc (q : ℚ) : ℤ :=
  if 0 ≤ q then ⌊q⌋ else ⌈q⌉

/-- Python's `sha or ''`: `None` and the empty string both collapse to
the empty string (falsy values), any other string is kept. -/
def pyOrEmpty : Option String → String
  | none => ""
  | some s => if s = "" then "" else s

/-- Function `make_sig` from `tgcloud/utils.py`:
`return f"{size}:{int(mtime)}:{sha or ''}"`. -/
def make_sig (size : ℕ) (mtime : ℚ) (sha : Option String) : String :=
  ⟨natReprChars size ++ ':' :: (intReprChars (pyTrunc mtime) ++ ':' :: (pyOrEmpty sha).data)⟩

/-! ## Data model (`tgcloud/core/models.py`) -/

/-- Dataclass `FileMeta` from `tgcloud/core/models.py`, one record per
relative path. -/
structure FileMeta where
  size : ℕ
  mtime : ℚ
  sha256 : Option String := none
  message_id : Option ℤ := none
  file_id : Option String := none
  user_message_id : Option ℤ := none
  via : Option String := none
  status : String := "pending"
  sig : Option String := none
  uploaded_at : Option String := none
deriving DecidableEq

/-- Dataclass `MetadataDB`: the persistent store.  The `files` dict is
an association list keyed by relative path. -/
structure MetadataDB where
  files : List (String × FileMeta) := []
  last_backup_iso : Option String := none
deriving DecidableEq

/-- State of the metadata file on disk when `MetadataDB.load` runs. -/
inductive DiskFile where
  | missing : DiskFile
  | present : String → DiskFile

/-- Outcome of deserializing the metadata file's text: `json.loads`
raising `JSONDecodeError` (`jsonError`), the decoded JSON not matching
the `FileMeta` schema so that `FileMeta(**v)` raises and the generic
`except Exception` handler fires (`schemaError`), or a successful
decode (`ok`). -/
inductive ParseOutcome where
  | jsonError : ParseOutcome
  | schemaError : ParseOutcome
  | ok : List (String × FileMeta) → Option String → ParseOutcome

/-- What `MetadataDB.load` does to the on-disk file: leave it where it
is, or attempt `path.replace(path.with_suffix(".corrupt.json"))`,
renaming it aside as a quarantine artifact. -/
inductive DiskAction where
  | noRename : DiskAction
  | renamedAside : DiskAction
deriving DecidableEq

/-- Python's `not text.strip()`: true iff the text contains only
whitespace characters. -/
def pyFalsyText (s : String) : Bool :=
  s.data.all (·.isWhitespace)

/-- Loader `MetadataDB.load` from `tgcloud/core/models.py`, as a function of
the on-disk file state and of the deserialization outcome.  Missing
file: fresh store.  Blank file: fresh store (the early return happens
before any rename).  `json.JSONDecodeError`: the file is renamed aside
to a `.corrupt.json` name and a fresh store is returned.  Any other
exception (schema mismatch in `FileMeta(**v)`): fresh store, no rename.
The function is total: no branch propagates an exception. -/
def MetadataDB.load (file : DiskFile) (parse : String → ParseOutcome) :
    MetadataDB × DiskAction :=
  match file with
  | .missing => ({}, .noRename)
  | .present text =>
    if pyFalsyText text then ({}, .noRename)
    else
      match parse text with
      | .ok fs lb => ({ files := fs, last_backup_iso := lb }, .noRename)
      | .jsonError => ({}, .renamedAside)
      | .schemaError => ({}, .noRename)

/-! ## Configuration (`tgcloud/config.py`) -/

/-- Configuration dictionary, restricted to the keys of
`DEFAULT_CONFIG`. -/
structure Config where
  bot_token : String
  chat_id : String
  api_id : String
  api_hash : String
  user_session_string : String
  enable_2gb_mode : Bool
  encryption_enabled : Bool
  encryption_passphrase : String
  rate_limit_seconds : ℚ
  autosync : Bool
  max_file_mb : ℕ
  num_workers : ℤ
  download_workers : ℤ
  daily_backup_time : String
  use_sha256 : Bool
  force_user_api : Bool
  preferred_python : String

/-- Constant `DEFAULT_CONFIG` from `tgcloud/config.py`. -/
def DEFAULT_CONFIG : Config :=
  { bot_token := ""
    chat_id := ""
    api_id := ""
    api_hash := ""
    user_session_string := ""
    enable_2gb_mode := false
    encryption_enabled := false
    encryption_passphrase := ""
    rate_limit_seconds := 1 / 2
    autosync := true
    max_file_mb := 48
    num_workers := 3
    download_workers := 3
    daily_backup_time := "02:00"
    use_sha256 := false
    force_user_api := true
    preferred_python := "py -3.11" }

/-! ## Transfer router (`tgcloud/telegram/dual_client.py`) -/

/-- Constant `DualTelegramClient.BOT_LIMIT = 49 * 1024 * 1024`: the primary
(Bot API) payload ceiling. -/
def BOT_LIMIT : ℕ := 49 * 1024 * 1024

/-- Which branch of `send_document` carries the transfer.  `user` is
the secondary (session-based) endpoint, `bot` is the primary (Bot API)
endpoint — the only branch that performs a Bot API network call — and
`unroutable` is the early `return ("bot", None, None)` taken when the
file exceeds `BOT_LIMIT` and the secondary path is unavailable, before
any network call. -/
inductive Route where
  | user : Route
  | bot : Route
  | unroutable : Route
deriving DecidableEq

/-- Routing decision of `DualTelegramClient.send_document`
(lines 308–322).  `userReady` conflates `self.user_client is not None`
with `self.user_ready.is_set()`; `size` is `path.stat().st_size` of the
file handed to the router. -/
def send_document_route (enable2gb userReady forceUser preferUser : Bool) (size : ℕ) :
    Route :=
  if enable2gb = true ∧ userReady = true ∧
      (forceUser = true ∨ size > BOT_LIMIT ∨ preferUser = true) then .user
  else if size > BOT_LIMIT then .unroutable
  else .bot

/-- Value returned by `DualTelegramClient.send_document`: the
`(via, message_id, file_id)` triple.  The remote calls themselves are
oracles: `userResult` is what `user_send_document` would return and
`botResult` what `bot_send_document` would return. -/
def send_document (enable2gb userReady forceUser preferUser : Bool) (size : ℕ)
    (userResult : Option ℤ) (botResult : Option ℤ × Option String) :
    String × Option ℤ × Option String :=
  match send_document_route enable2gb userReady forceUser preferUser size with
  | .user => ("user", userResult, none)
  | .unroutable => ("bot", none, none)
  | .bot => ("bot", botResult.1, botResult.2)

/-- Truthiness of an optional Python string (`None` and `""` are
falsy). -/
def truthyStr : Option String → Bool
  | none => false
  | some s => !(s == "")

/-- Truthiness of an optional Python int (`None` and `0` are falsy). -/
def truthyInt : Option ℤ → Bool
  | none => false
  | some i => !(i == 0)

/-- Endpoints actually called during `DualTelegramClient.download`. -/
inductive DlAttempt where
  | botAttempt : DlAttempt
  | userAttempt : DlAttempt
deriving DecidableEq

/-- The secondary-endpoint part of `DualTelegramClient.download`
(lines 334–343): try `user_message_id`, else fall back to a bare
`message_id` when a user client object exists.
`user_download_by_message_id` itself returns `False` without any
remote call when the user loop/client is not ready, hence the
`userReady` guard around the recorded attempt.  `userClientSome`
models `self.user_client is not None` alone. -/
def download_rest (fm : FileMeta) (userClientSome userReady userOk : Bool) :
    Bool × List DlAttempt :=
  if truthyInt fm.user_message_id then
    if userReady then (userOk, [.userAttempt]) else (false, [])
  else if truthyInt fm.message_id && userClientSome then
    if userReady then (userOk, [.userAttempt]) else (false, [])
  else (false, [])

/-- Method `DualTelegramClient.download` (lines 324–343).  The primary (bot)
endpoint is tried only when `fm.via != "user"` **and** a truthy
`file_id` is present; on failure it falls through to the secondary
branches.  `botOk` is the oracle for `bot_download_file`. -/
def download (fm : FileMeta) (botOk userClientSome userReady userOk : Bool) :
    Bool × List DlAttempt :=
  if (!(fm.via == some "user")) && truthyStr fm.file_id then
    if botOk then (true, [.botAttempt])
    else
      ((download_rest fm userClientSome userReady userOk).1,
        .botAttempt :: (download_rest fm userClientSome userReady userOk).2)
  else download_rest fm userClientSome userReady userOk

/-! ## Upload pool (`tgcloud/workers/upload_pool.py`) -/

/-- What the `(message_id, file_id)`-producing router call returned to
`UploadPool._process`: `via`, `mid`, `fid` as in
`via, mid, fid = self.tg.send_document(...)`. -/
structure SendRes where
  via : String
  mid : Option ℤ
  fid : Option String

/-- The record write-back at the end of `UploadPool._process`
(lines 236–276).  On success (`mid` truthy): the record is rebuilt from
a fresh stat of the **original** path (`statSize`, `statMtime`), status
`uploaded`, signature recomputed, `via` set, and only the reference
field of the endpoint that carried the transfer is assigned — the other
endpoint's old reference is left as it was in `prev`.  On failure
(`mid = None`): status `failed` and the signature computed at attempt
time (`sigNow`); `curSize` is the possibly-encrypted size used for the
default record, `origMtime` the mtime read before the attempt. -/
def process_record_update (prev : Option FileMeta) (res : SendRes)
    (statSize : ℕ) (statMtime : ℚ) (sha : Option String)
    (curSize : ℕ) (origMtime : ℚ) (sigNow : String) (uploadedAt : String) :
    FileMeta :=
  match res.mid with
  | some m =>
    let fm0 := prev.getD { size := 0, mtime := 0 }
    let fm1 : FileMeta :=
      { fm0 with
        size := statSize
        mtime := statMtime
        sha256 := sha
        status := "uploaded"
        uploaded_at := some uploadedAt
        sig := some (make_sig statSize statMtime sha)
        via := some res.via }
    if res.via == "bot" then { fm1 with message_id := some m, file_id := res.fid }
    else { fm1 with user_message_id := some m }
  | none =>
    let fm0 := prev.getD { size := curSize, mtime := origMtime }
    { fm0 with status := "failed", sig := some sigNow }

/-- The store mutation and persistence after a transfer attempt:
`self.meta.files[rel] = fm; self.meta.save(METADATA_FILE)` — performed
in both the success and the failure branch of `_process`.  The boolean
records that `save` was invoked.  `sigNow` is computed exactly as at
line 176: from the size/mtime/hash read before any encryption. -/
def process_tail (files : List (String × FileMeta)) (rel : String) (res : SendRes)
    (origSize : ℕ) (origMtime : ℚ) (sha : Option String) (curSize : ℕ)
    (statSize : ℕ) (statMtime : ℚ) (uploadedAt : String) :
    List (String × FileMeta) × Bool :=
  let sigNow := make_sig origSize origMtime sha
  let fm := process_record_update (files.lookup rel) res
    statSize statMtime sha curSize origMtime sigNow uploadedAt
  ((rel, fm) :: files, true)

/-- The `_worker_loop` guard around `_process` (lines 122–136): any
exception is caught, logged, and the loop continues; nothing escapes to
the process level. -/
inductive WorkerStep where
  | continues : WorkerStep
deriving DecidableEq

/-- Outcome of one `_process` call as seen by `_worker_loop`. -/
def worker_guard : Except String Unit → WorkerStep
  | .ok _ => .continues
  | .error _ => .continues

/-- The `fm and fm.status == "uploaded" and fm.sig == sig_now` test
shared by `UploadPool._unchanged` (line 156) and the `_process`
re-check (line 179).  `fm.sig` is optional, so the Python `==` against
the string `sig_now` is `fm.sig = some sigNow`. -/
def unchanged_check (fmOpt : Option FileMeta) (sigNow : String) : Bool :=
  match fmOpt with
  | some fm => fm.status == "uploaded" && fm.sig == some sigNow
  | none => false

/-- What a worker or the enqueue path observes about a filesystem path:
existence, the ignored-suffix test (`IGNORED_SUFFIXES` or a `~$` name),
the result of `path.relative_to(CLOUD_DIR)` (`none` when the path is
outside the watched root), whether `stat` succeeds, and the observed
attributes (`sha` is `sha256_of(path)` when `use_sha256` is configured,
`None` otherwise, as resolved by the caller). -/
structure PathView where
  exists_ : Bool
  ignored : Bool
  rel : Option String
  statOk : Bool
  size : ℕ
  mtime : ℚ
  sha : Option String
deriving DecidableEq

/-- Mutable state of `UploadPool` relevant to `enqueue`: the
`_last_event` debounce dictionary, the work queue contents, and the
metadata store's `files` dict. -/
structure PoolState where
  lastEvent : List (String × ℚ)
  queue : List PathView
  files : List (String × FileMeta)
deriving DecidableEq

/-- Method `UploadPool._unchanged` (lines 141–156): a path outside the root is
reported unchanged (skip), a failed `stat` is reported changed (retry
later), otherwise the record for `rel` is compared against the
signature of the current attributes. -/
def pool_unchanged (p : PathView) (files : List (String × FileMeta)) : Bool :=
  match p.rel with
  | none => true
  | some rel =>
    if p.statOk = false then false
    else unchanged_check (files.lookup rel) (make_sig p.size p.mtime p.sha)

/-- Method `UploadPool.enqueue` (lines 75–106).  Guards in source order:
missing path, ignored suffix, path outside `CLOUD_DIR`, debounce
(`now - self._last_event.get(rel, 0) < 1.0`), then the debounce stamp
is written, then the unchanged check, the duplicate-queue-entry check,
and finally `self.q.put(path)`. -/
def enqueue (st : PoolState) (p : PathView) (now : ℚ) : PoolState :=
  if p.exists_ = false then st
  else if p.ignored = true then st
  else
    match p.rel with
    | none => st
    | some rel =>
      if now - ((st.lastEvent.lookup rel).getD 0) < 1 then st
      else
        let st1 : PoolState := { st with lastEvent := (rel, now) :: st.lastEvent }
        if pool_unchanged p st.files then st1
        else if p ∈ st.queue then st1
        else { st1 with queue := st1.queue ++ [p] }

/-- Trace of the optional-encryption segment of `UploadPool._process`
(lines 187–234): whether the bytes handed to the router are the
encrypted sibling `*.enc` temp file, the size used for routing and
progress (`size = len(enc)` replaces the original size), and whether
the temp file still exists after the attempt.  `sendRaises` models
`self.tg.send_document` raising (e.g. `raise_for_status` on an HTTP
error): the cleanup at lines 230–234 is straight-line code after the
call, so it only runs when the call returns. -/
structure AttemptTrace where
  uploadIsEncryptedTemp : Bool
  uploadSize : ℕ
  tempExistsAfter : Bool
  sendReturned : Bool
deriving DecidableEq

/-- The encryption path is taken iff `encryption_enabled` is set, the
`cryptography` package imported, and the passphrase is nonempty
(lines 188–190). -/
def encryption_active (encEnabled fernetAvailable : Bool) (passphrase : String) : Bool :=
  encEnabled && fernetAvailable && !(passphrase == "")

/-- The encryption/transfer/cleanup segment of `UploadPool._process`:
builds the `AttemptTrace` for one attempt.  `origSize` is the stat size
of the original file, `encSize` the length of the Fernet ciphertext. -/
def process_attempt (encEnabled fernetAvailable : Bool) (passphrase : String)
    (origSize encSize : ℕ) (sendRaises : Bool) : AttemptTrace :=
  let enc := encryption_active encEnabled fernetAvailable passphrase
  let uploadSize := if enc then encSize else origSize
  if sendRaises then
    { uploadIsEncryptedTemp := enc
      uploadSize := uploadSize
      tempExistsAfter := enc
      sendReturned := false }
  else
    { uploadIsEncryptedTemp := enc
      uploadSize := uploadSize
      tempExistsAfter := false
      sendReturned := true }

/-! ## Concrete sample values used to instantiate the theorems -/

/-- A store record left behind by a failed upload attempt. -/
def sampleFailedMeta : FileMeta :=
  { size := 1, mtime := 0, status := "failed", sig := some "sg" }

/-- A view of an ordinary watched file at relative path `"a"`. -/
def samplePath : PathView :=
  { exists_ := true, ignored := false, rel := some "a", statOk := true,
    size := 1, mtime := 0, sha := none }

/-- Pool state with an empty queue, no debounce history, and a failed
record for `"a"`. -/
def samplePool : PoolState :=
  { lastEvent := [], queue := [], files := [("a", sampleFailedMeta)] }

/-- Pool state with empty queue, debounce history and store. -/
def emptyPool : PoolState :=
  { lastEvent := [], queue := [], files := [] }

/-! ## Lemmas about the decimal rendering used by `make_sig` -/

theorem digitChar_injOn10 : ∀ a, a < 10 → ∀ b, b < 10 →
    Nat.digitChar a = Nat.digitChar b → a = b := by decide

theorem digitChar_ne_colon : ∀ a, a < 10 → Nat.digitChar a ≠ ':' := by decide

theorem digitChar_ne_dash : ∀ a, a < 10 → Nat.digitChar a ≠ '-' := by decide

theorem mem_natReprChars {c : Char} {n : ℕ} (hc : c ∈ natReprChars n) :
    ∃ d, d < 10 ∧ c = Nat.digitChar d := by
  unfold natReprChars at hc
  split at hc
  · simp only [List.mem_singleton] at hc
    exact ⟨0, by norm_num, by rw [hc]; rfl⟩
  · rw [List.mem_reverse] at hc
    obtain ⟨d, hd, he⟩ := List.mem_map.mp hc
    exact ⟨d, Nat.digits_lt_base (by norm_num) hd, he.symm⟩

theorem colon_not_mem_natReprChars (n : ℕ) : ':' ∉ natReprChars n := by
  intro h
  obtain ⟨d, hd, he⟩ := mem_natReprChars h
  exact digitChar_ne_colon d hd he.symm

theorem dash_not_mem_natReprChars (n : ℕ) : '-' ∉ natReprChars n := by
  intro h
  obtain ⟨d, hd, he⟩ := mem_natReprChars h
  exact digitChar_ne_dash d hd he.symm

theorem map_digitChar_injOn : ∀ (l₁ l₂ : List ℕ), (∀ d ∈ l₁, d < 10) → (∀ d ∈ l₂, d < 10) →
    l₁.map Nat.digitChar = l₂.map Nat.digitChar → l₁ = l₂ := by
  intro l₁
  induction l₁ with
  | nil =>
    intro l₂ _ _ h
    cases l₂ <;> simp_all
  | cons a t ih =>
    intro l₂ h₁ h₂ h
    cases l₂ with
    | nil => simp at h
    | cons b t₂ =>
      simp only [List.map_cons, List.cons.injEq] at h
      have hab := digitChar_injOn10 a (h₁ a (by simp)) b (h₂ b (by simp)) h.1
      subst hab
      rw [ih t₂ (fun d hd => h₁ d (by simp [hd])) (fun d hd => h₂ d (by simp [hd])) h.2]

theorem eq_zero_of_natReprChars_eq_zero {n : ℕ} (h : natReprChars n = ['0']) : n = 0 := by
  by_contra hn
  unfold natReprChars at h
  rw [if_neg hn] at h
  have h2 : (Nat.digits 10 n).map Nat.digitChar = ['0'] := by
    have h3 := congrArg List.reverse h
    simpa using h3
  rcases hl : Nat.digits 10 n with _ | ⟨d, ds⟩
  · rw [hl] at h2
    simp at h2
  · rw [hl] at h2
    rcases ds with _ | ⟨e, es⟩
    · simp only [List.map_cons, List.map_nil, List.cons.injEq, and_true] at h2
      have hd10 : d < 10 := Nat.digits_lt_base (by norm_num) (by rw [hl]; simp)
      have hd0 : d = 0 := digitChar_injOn10 d hd10 0 (by norm_num) (by rw [h2]; rfl)
      subst hd0
      have h4 := Nat.ofDigits_digits 10 n
      rw [hl] at h4
      simp [Nat.ofDigits] at h4
      omega
    · simp at h2

theorem natReprChars_injective {m n : ℕ} (h : natReprChars m = natReprChars n) : m = n := by
  by_cases hm : m = 0
  · subst hm
    have h0 : natReprChars n = ['0'] := by
      rw [← h]; rfl
    exact (eq_zero_of_natReprChars_eq_zero h0).symm
  by_cases hn : n = 0
  · subst hn
    have h0 : natReprChars m = ['0'] := by
      rw [h]; rfl
    exact eq_zero_of_natReprChars_eq_zero h0
  unfold natReprChars at h
  rw [if_neg hm, if_neg hn] at h
  have h2 := List.reverse_injective h
  have h3 := map_digitChar_injOn _ _
    (fun d hd => Nat.digits_lt_base (by norm_num) hd)
    (fun d hd => Nat.digits_lt_base (by norm_num) hd) h2
  exact Nat.digits.injective 10 h3

theorem colon_not_mem_intReprChars (i : ℤ) : ':' ∉ intReprChars i := by
  unfold intReprChars
  split
  · intro h
    rcases List.mem_cons.mp h with h | h
    · exact absurd h (by decide)
    · exact colon_not_mem_natReprChars _ h
  · exact colon_not_mem_natReprChars _

theorem intReprChars_injective {i j : ℤ} (h : intReprChars i = intReprChars j) : i = j := by
  unfold intReprChars at h
  by_cases hi : i < 0 <;> by_cases hj : j < 0
  · rw [if_pos hi, if_pos hj] at h
    simp only [List.cons.injEq, true_and] at h
    have := natReprChars_injective h
    omega
  · rw [if_pos hi, if_neg hj] at h
    have hmem : '-' ∈ natReprChars j.natAbs := by
      rw [← h]; exact List.mem_cons_self _ _
    exact absurd hmem (dash_not_mem_natReprChars _)
  · rw [if_neg hi, if_pos hj] at h
    have hmem : '-' ∈ natReprChars i.natAbs := by
      rw [h]; exact List.mem_cons_self _ _
    exact absurd hmem (dash_not_mem_natReprChars _)
  · rw [if_neg hi, if_neg hj] at h
    have := natReprChars_injective h
    omega

theorem append_sep_inj : ∀ (a₁ : List Char) (a₂ r₁ r₂ : List Char), ':' ∉ a₁ → ':' ∉ a₂ →
    a₁ ++ ':' :: r₁ = a₂ ++ ':' :: r₂ → a₁ = a₂ ∧ r₁ = r₂ := by
  intro a₁
  induction a₁ with
  | nil =>
    intro a₂ r₁ r₂ _ h₂ h
    cases a₂ with
    | nil => simpa using h
    | cons b t =>
      simp only [List.nil_append, List.cons_append, List.cons.injEq] at h
      have hmem : ':' ∈ b :: t := by
        rw [← h.1]; exact List.mem_cons_self _ _
      exact absurd hmem h₂
  | cons a t ih =>
    intro a₂ r₁ r₂ h₁ h₂ h
    cases a₂ with
    | nil =>
      simp only [List.nil_append, List.cons_append, List.cons.injEq] at h
      have hmem : ':' ∈ a :: t := by
        rw [h.1]; exact List.mem_cons_self _ _
      exact absurd hmem h₁
    | cons b t₂ =>
      simp only [List.cons_append, List.cons.injEq] at h
      obtain ⟨he, ht⟩ := h
      obtain ⟨ha, hr⟩ := ih t₂ r₁ r₂
        (fun hm => h₁ (List.mem_cons_of_mem _ hm))
        (fun hm => h₂ (List.mem_cons_of_mem _ hm)) ht
      exact ⟨by rw [he, ha], hr⟩

theorem string_data_injective {s t : String} (h : s.data = t.data) : s = t :=
  congrArg String.mk h

/-! ## Claim theorems -/

/-- C1 (corrected): two `make_sig` outputs are equal iff the sizes are
equal, the mtimes truncate to the same integer, and the hashes agree
after Python's `sha or ''` collapse of `None` and `""` to the empty
placeholder.  The claim's "equal iff the two input triples are equal"
fails: the fractional part of `mtime` and the `None`-vs-`""` hash
distinction are erased. -/
theorem make_sig_eq_iff (s₁ s₂ : ℕ) (m₁ m₂ : ℚ) (h₁ h₂ : Option String) :
    make_sig s₁ m₁ h₁ = make_sig s₂ m₂ h₂ ↔
      s₁ = s₂ ∧ pyTrunc m₁ = pyTrunc m₂ ∧ pyOrEmpty h₁ = pyOrEmpty h₂ := by
  constructor
  · intro h
    have hd : natReprChars s₁ ++ ':' :: (intReprChars (pyTrunc m₁) ++ ':' :: (pyOrEmpty h₁).data)
        = natReprChars s₂ ++ ':' :: (intReprChars (pyTrunc m₂) ++ ':' :: (pyOrEmpty h₂).data) :=
      congrArg String.data h
    obtain ⟨hs, hrest⟩ := append_sep_inj _ _ _ _
      (colon_not_mem_natReprChars s₁) (colon_not_mem_natReprChars s₂) hd
    obtain ⟨hm, hsha⟩ := append_sep_inj _ _ _ _
      (colon_not_mem_intReprChars _) (colon_not_mem_intReprChars _) hrest
    exact ⟨natReprChars_injective hs, intReprChars_injective hm, string_data_injective hsha⟩
  · rintro ⟨rfl, hm, hh⟩
    simp only [make_sig, hm, hh]

/-- C1 counterexample: `make_sig` collapses distinct inputs.  A `None`
hash and an empty-string hash produce the same signature, and mtimes
`1.0` and `1.5` produce the same signature. -/
theorem make_sig_collision :
    (make_sig 1 1 none = make_sig 1 1 (some "") ∧ (none : Option String) ≠ some "")
    ∧ (make_sig 1 1 none = make_sig 1 (3 / 2) none ∧ (1 : ℚ) ≠ 3 / 2) := by
  refine ⟨⟨by simp [make_sig, pyOrEmpty], by decide⟩, ⟨?_, by norm_num⟩⟩
  have ht : pyTrunc (3 / 2 : ℚ) = pyTrunc 1 := by
    unfold pyTrunc
    rw [if_pos (by norm_num), if_pos (by norm_num), Int.floor_one, Int.floor_eq_iff]
    norm_num
  simp only [make_sig, ht]

/-- C2 (corrected): when the secondary branch of `send_document` is not
taken (large-file mode off, or the secondary client not ready, or
neither the force-user flag nor the caller preference set), a file of
size exactly `BOT_LIMIT` routes to the primary endpoint; one byte over
with large-file mode disabled yields the unroutable early return
`("bot", None, None)` before any network call, and the engine's
write-back then records `status = "failed"`.  The claim's unqualified
"every file at the ceiling routes to primary" fails when
`force_user_api` engages the secondary path (see the counterexample
and C10). -/
theorem routing_boundary (e r f p : Bool)
    (h : e = false ∨ r = false ∨ (f = false ∧ p = false))
    (files : List (String × FileMeta)) (rel : String)
    (origSize curSize statSize : ℕ) (origMtime statMtime : ℚ) (sha : Option String)
    (ua : String) (uRes : Option ℤ) (bRes : Option ℤ × Option String) :
    send_document_route e r f p BOT_LIMIT = Route.bot
    ∧ send_document_route false r f p (BOT_LIMIT + 1) = Route.unroutable
    ∧ send_document false r f p (BOT_LIMIT + 1) uRes bRes = ("bot", none, none)
    ∧ (process_tail files rel ⟨"bot", none, none⟩ origSize origMtime sha curSize statSize statMtime ua).1.lookup rel
        = some (process_record_update (files.lookup rel) ⟨"bot", none, none⟩
            statSize statMtime sha curSize origMtime (make_sig origSize origMtime sha) ua)
    ∧ (process_record_update (files.lookup rel) ⟨"bot", none, none⟩
        statSize statMtime sha curSize origMtime (make_sig origSize origMtime sha) ua).status = "failed" := by
  have h2 : send_document_route false r f p (BOT_LIMIT + 1) = Route.unroutable := by
    unfold send_document_route
    rw [if_neg (by rintro ⟨he, _⟩; simp at he), if_pos (by omega)]
  refine ⟨?_, h2, ?_, ?_, rfl⟩
  · unfold send_document_route
    rw [if_neg, if_neg]
    · omega
    · rintro ⟨he, hr, hfp⟩
      rcases h with h' | h' | ⟨hf, hp⟩
      · rw [h'] at he; simp at he
      · rw [h'] at hr; simp at hr
      · rcases hfp with h'' | h'' | h''
        · rw [hf] at h''; simp at h''
        · omega
        · rw [hp] at h''; simp at h''
  · unfold send_document
    rw [h2]
  · simp [process_tail, List.lookup]

/-- C2 witness: with large-file mode disabled, a file of exactly
`BOT_LIMIT` bytes routes to the primary endpoint and one byte more is
unroutable. -/
theorem routing_boundary_witness :
    ((false : Bool) = false ∨ (true : Bool) = false ∨ ((true : Bool) = false ∧ (true : Bool) = false))
    ∧ send_document_route false true true true BOT_LIMIT = Route.bot
    ∧ send_document_route false true true true (BOT_LIMIT + 1) = Route.unroutable := by
  have h := routing_boundary false true true true (Or.inl rfl) [] "a" 1 1 1 0 0 none "t" none (none, none)
  exact ⟨Or.inl rfl, h.1, h.2.1⟩

/-- C2 counterexample: with large-file mode enabled, the secondary
client ready and `force_user_api` set (its default), a file of size
exactly `BOT_LIMIT` is routed to the secondary endpoint, not the
primary one. -/
theorem routing_boundary_force_user :
    send_document_route true true true false BOT_LIMIT = Route.user
    ∧ Route.user ≠ Route.bot := by
  constructor
  · unfold send_document_route
    rw [if_pos ⟨rfl, rfl, Or.inl rfl⟩]
  · decide

/-- C10 (confirmed): `force_user_api` defaults to `true`, and whenever
large-file mode is enabled and the secondary client is ready, every
send is routed to the secondary endpoint regardless of size, so the
size-based primary rule is never exercised in that state. -/
theorem default_force_user_routes_secondary (preferUser : Bool) (size : ℕ) :
    DEFAULT_CONFIG.force_user_api = true
    ∧ send_document_route true true DEFAULT_CONFIG.force_user_api preferUser size = Route.user := by
  refine ⟨rfl, ?_⟩
  unfold send_document_route
  rw [if_pos ⟨rfl, rfl, Or.inl rfl⟩]

/-- C3 (corrected): `MetadataDB.load` is total — a missing file and a
blank file both yield a fresh store with the on-disk file left alone; a
JSON-malformed file yields a fresh store after the damaged file is
renamed aside as a `.corrupt.json` artifact; a schema-invalid file
(generic exception) yields a fresh store with no rename.  The claim's
assertion that an *empty* file is also renamed aside fails: the blank
early-return happens before any rename. -/
theorem load_recovery (text : String) (parse : String → ParseOutcome) :
    MetadataDB.load .missing parse = ({}, .noRename)
    ∧ (pyFalsyText text = true → MetadataDB.load (.present text) parse = ({}, .noRename))
    ∧ (pyFalsyText text = false → parse text = .jsonError →
        MetadataDB.load (.present text) parse = ({}, .renamedAside))
    ∧ (pyFalsyText text = false → parse text = .schemaError →
        MetadataDB.load (.present text) parse = ({}, .noRename))
    ∧ (∀ fs lb, pyFalsyText text = false → parse text = .ok fs lb →
        MetadataDB.load (.present text) parse = ({ files := fs, last_backup_iso := lb }, .noRename)) := by
  refine ⟨rfl, ?_, ?_, ?_, ?_⟩
  · intro hb
    simp [MetadataDB.load, hb]
  · intro hb hp
    simp [MetadataDB.load, hb, hp]
  · intro hb hp
    simp [MetadataDB.load, hb, hp]
  · intro fs lb hb hp
    simp [MetadataDB.load, hb, hp]

/-- C3 witness: a JSON-malformed nonblank file is quarantined and an
empty store returned. -/
theorem load_recovery_witness :
    pyFalsyText "x" = false
    ∧ MetadataDB.load (.present "x") (fun _ => .jsonError) = ({}, .renamedAside) := by
  refine ⟨by decide, ?_⟩
  exact (load_recovery "x" (fun _ => .jsonError)).2.2.1 (by decide) rfl

/-- C3 counterexample: an empty metadata file yields an empty store but
is **not** renamed aside — the blank-file early return precedes the
rename, which only the `json.JSONDecodeError` handler performs. -/
theorem load_empty_file_not_renamed :
    (MetadataDB.load (.present "") (fun _ => .jsonError)).2 = DiskAction.noRename
    ∧ DiskAction.noRename ≠ DiskAction.renamedAside :=
  ⟨rfl, by decide⟩

/-- C4 (confirmed): when the router returns no message reference
(`mid = None`, covering both remote failure and the unroutable early
return), `_process` stores a record with `status = "failed"` and the
signature computed at attempt time from the pre-encryption attributes,
persists the store, and the worker loop's catch-all guard turns any
raised exception into a continued loop, never a process-level fault. -/
theorem failed_attempt_recorded (files : List (String × FileMeta)) (rel v : String)
    (fid : Option String) (origSize curSize statSize : ℕ) (origMtime statMtime : ℚ)
    (sha : Option String) (ua : String) :
    (process_tail files rel ⟨v, none, fid⟩ origSize origMtime sha curSize statSize statMtime ua).1.lookup rel
      = some (process_record_update (files.lookup rel) ⟨v, none, fid⟩
          statSize statMtime sha curSize origMtime (make_sig origSize origMtime sha) ua)
    ∧ (process_record_update (files.lookup rel) ⟨v, none, fid⟩
        statSize statMtime sha curSize origMtime (make_sig origSize origMtime sha) ua).status = "failed"
    ∧ (process_record_update (files.lookup rel) ⟨v, none, fid⟩
        statSize statMtime sha curSize origMtime (make_sig origSize origMtime sha) ua).sig
        = some (make_sig origSize origMtime sha)
    ∧ (process_tail files rel ⟨v, none, fid⟩ origSize origMtime sha curSize statSize statMtime ua).2 = true
    ∧ (∀ msg, worker_guard (.error msg) = .continues) := by
  refine ⟨?_, rfl, rfl, rfl, fun _ => rfl⟩
  simp [process_tail, List.lookup]

/-- C6 (corrected): a successful transfer sets `via` and the carrying
endpoint's reference field (`message_id`/`file_id` for the primary,
`user_message_id` for the secondary), but the opposite endpoint's old
reference is **left untouched**, not cleared; only the `via` field
identifies the most recent successful transport. -/
theorem success_record_update (pfm : FileMeta) (m : ℤ) (fid : Option String)
    (statSize : ℕ) (statMtime : ℚ) (sha : Option String) (curSize : ℕ)
    (origMtime : ℚ) (sigNow ua : String) :
    ((process_record_update (some pfm) ⟨"bot", some m, fid⟩ statSize statMtime sha curSize origMtime sigNow ua).via = some "bot")
    ∧ ((process_record_update (some pfm) ⟨"bot", some m, fid⟩ statSize statMtime sha curSize origMtime sigNow ua).message_id = some m)
    ∧ ((process_record_update (some pfm) ⟨"bot", some m, fid⟩ statSize statMtime sha curSize origMtime sigNow ua).file_id = fid)
    ∧ ((process_record_update (some pfm) ⟨"bot", some m, fid⟩ statSize statMtime sha curSize origMtime sigNow ua).user_message_id = pfm.user_message_id)
    ∧ ((process_record_update (some pfm) ⟨"bot", some m, fid⟩ statSize statMtime sha curSize origMtime sigNow ua).status = "uploaded")
    ∧ ((process_record_update (some pfm) ⟨"user", some m, fid⟩ statSize statMtime sha curSize origMtime sigNow ua).via = some "user")
    ∧ ((process_record_update (some pfm) ⟨"user", some m, fid⟩ statSize statMtime sha curSize origMtime sigNow ua).user_message_id = some m)
    ∧ ((process_record_update (some pfm) ⟨"user", some m, fid⟩ statSize statMtime sha curSize origMtime sigNow ua).message_id = pfm.message_id)
    ∧ ((process_record_update (some pfm) ⟨"user", some m, fid⟩ statSize statMtime sha curSize origMtime sigNow ua).file_id = pfm.file_id)
    ∧ ((process_record_update (some pfm) ⟨"user", some m, fid⟩ statSize statMtime sha curSize origMtime sigNow ua).status = "uploaded") :=
  ⟨rfl, rfl, rfl, rfl, rfl, rfl, rfl, rfl, rfl, rfl⟩

/-- C6 counterexample: after a successful secondary transfer, a stale
primary-blob reference from an earlier primary upload remains in the
record instead of being cleared. -/
theorem stale_primary_ref_kept :
    ((process_record_update (some { size := 1, mtime := 0, file_id := some "f", message_id := some 1 })
        ⟨"user", some 7, none⟩ 1 0 none 1 0 "s" "t").file_id = some "f")
    ∧ some "f" ≠ (none : Option String) :=
  ⟨rfl, by decide⟩

/-- C5 (confirmed): a record with `status = "failed"` never passes the
"already synced" test, whatever signature it stores, so an unchanged
failed file is re-enqueued (the debounce, duplicate and unchanged
guards all let it through) and processed again instead of skipped. -/
theorem failed_record_retried (fm : FileMeta) (hf : fm.status = "failed") (s : String)
    (st : PoolState) (p : PathView) (now : ℚ) (r : String)
    (hex : p.exists_ = true) (hig : p.ignored = false) (hrel : p.rel = some r)
    (hstat : p.statOk = true)
    (hdeb : ¬ now - ((st.lastEvent.lookup r).getD 0) < 1)
    (hq : p ∉ st.queue) (hfile : st.files.lookup r = some fm) :
    unchanged_check (some fm) s = false
    ∧ (enqueue st p now).queue = st.queue ++ [p] := by
  have hu : ∀ s', unchanged_check (some fm) s' = false := by
    intro s'
    simp [unchanged_check, hf]
  have hpu : pool_unchanged p st.files = false := by
    simp only [pool_unchanged, hrel, hstat]
    rw [if_neg (by simp), hfile]
    exact hu _
  refine ⟨hu s, ?_⟩
  simp only [enqueue, hex, hig, hrel, hpu]
  rw [if_neg (by simp), if_neg (by simp), if_neg hdeb, if_neg (by simp), if_neg hq]

/-- C5 witness: a concrete failed record in the store is re-enqueued by
`enqueue` rather than skipped as already synced. -/
theorem failed_record_retried_witness :
    unchanged_check (some sampleFailedMeta) "sg" = false
    ∧ (enqueue samplePool samplePath 1).queue = samplePool.queue ++ [samplePath] := by
  exact failed_record_retried sampleFailedMeta rfl "sg" samplePool samplePath 1 "a"
    rfl rfl rfl rfl (by simp [samplePool]) (by simp [samplePool]) rfl

/-- C7 (corrected): `download` tries the primary endpoint first only
when the record both carries a truthy primary-blob reference **and**
has `via ≠ "user"`; then it falls back to the secondary branches
exactly when the primary attempt fails.  Otherwise the secondary
endpoint is used, keyed by `user_message_id` (or by `message_id` when a
user client object exists), and with no usable reference the call
returns failure.  The claim's "every record carrying a primary-blob
reference tries primary first" fails for records whose `via` is
`"user"` (see the counterexample). -/
theorem download_routing (fm : FileMeta) (botOk uc ur uo : Bool) :
    (((!(fm.via == some "user")) && truthyStr fm.file_id) = true →
        (botOk = true → download fm botOk uc ur uo = (true, [.botAttempt]))
      ∧ (botOk = false → download fm botOk uc ur uo =
          ((download_rest fm uc ur uo).1, .botAttempt :: (download_rest fm uc ur uo).2)))
    ∧ (((!(fm.via == some "user")) && truthyStr fm.file_id) = false →
        download fm botOk uc ur uo = download_rest fm uc ur uo)
    ∧ (truthyInt fm.user_message_id = true → ur = true →
        download_rest fm uc ur uo = (uo, [.userAttempt]))
    ∧ (truthyInt fm.user_message_id = true → ur = false →
        download_rest fm uc ur uo = (false, []))
    ∧ (truthyInt fm.user_message_id = false → (truthyInt fm.message_id && uc) = true → ur = true →
        download_rest fm uc ur uo = (uo, [.userAttempt]))
    ∧ (truthyInt fm.user_message_id = false → (truthyInt fm.message_id && uc) = false →
        download_rest fm uc ur uo = (false, [])) := by
  refine ⟨fun hb => ⟨fun hok => ?_, fun hko => ?_⟩, fun hb => ?_, fun h1 h2 => ?_,
    fun h1 h2 => ?_, fun h1 h2 h3 => ?_, fun h1 h2 => ?_⟩
  · simp [download, hb, hok]
  · simp [download, hb, hko]
  · simp [download, hb]
  · simp [download_rest, h1, h2]
  · simp [download_rest, h1, h2]
  · simp [download_rest, h1, h2, h3]
  · simp [download_rest, h1, h2]

/-- C7 witness: a record uploaded via the primary endpoint downloads
through the primary endpoint on the first attempt. -/
theorem download_routing_witness :
    ((!((none : Option String) == some "user")) : Bool) = true
    ∧ download { size := 1, mtime := 0, file_id := some "f", message_id := some 3 } true true true true
      = (true, [DlAttempt.botAttempt]) := by
  refine ⟨by decide, ?_⟩
  exact ((download_routing { size := 1, mtime := 0, file_id := some "f", message_id := some 3 }
    true true true true).1 (by decide)).1 rfl

/-- C7 counterexample: a record that carries a primary-blob reference
(`file_id = "f"`) but has `via = "user"` never attempts the primary
endpoint: the download goes straight to the secondary branch. -/
theorem download_skips_primary_when_via_user :
    download { size := 1, mtime := 0, file_id := some "f", user_message_id := some 5, via := some "user" }
        true true true true
      = (true, [DlAttempt.userAttempt])
    ∧ truthyStr (some "f") = true
    ∧ DlAttempt.botAttempt ∉ [DlAttempt.userAttempt] :=
  ⟨rfl, rfl, by decide⟩

/-- C8 (corrected): with encryption enabled, the library available and
a nonempty passphrase, the bytes handed to the router are the encrypted
sibling temp file and the encrypted size replaces the original for
routing and progress; the temp file is removed after the attempt
whenever the router call **returns** (success or failure alike).  The
claim's "the temp file no longer exists even when the attempt errors"
fails: the cleanup is straight-line code after the call, so an
exception from `send_document` skips it (see the counterexample). -/
theorem encrypted_attempt (fernetAvailable : Bool) (passphrase : String)
    (origSize encSize : ℕ) (hfa : fernetAvailable = true)
    (hpp : (passphrase == "") = false) (sendRaises : Bool) :
    (process_attempt true fernetAvailable passphrase origSize encSize sendRaises).uploadIsEncryptedTemp = true
    ∧ (process_attempt true fernetAvailable passphrase origSize encSize sendRaises).uploadSize = encSize
    ∧ (sendRaises = false →
        (process_attempt true fernetAvailable passphrase origSize encSize sendRaises).tempExistsAfter = false) := by
  have he : encryption_active true fernetAvailable passphrase = true := by
    simp [encryption_active, hfa, hpp]
  refine ⟨?_, ?_, fun hsr => ?_⟩
  · cases sendRaises <;> simp [process_attempt, he]
  · cases sendRaises <;> simp [process_attempt, he]
  · simp [process_attempt, he, hsr]

/-- C8 witness: an encrypted attempt whose router call returns uploads
the encrypted size and leaves no temp file behind. -/
theorem encrypted_attempt_witness :
    (("pw" == "") = false)
    ∧ (process_attempt true true "pw" 10 100 false).uploadSize = 100
    ∧ (process_attempt true true "pw" 10 100 false).tempExistsAfter = false := by
  have h := encrypted_attempt true "pw" 10 100 rfl (by decide) false
  exact ⟨by decide, h.2.1, h.2.2 rfl⟩

/-- C8 counterexample: when the router call raises, the encrypted temp
file is leaked — it still exists after the attempt, contradicting the
claim's "regardless of outcome" deletion. -/
theorem encrypted_temp_leak_on_exception :
    (process_attempt true true "pw" 10 100 true).tempExistsAfter = true
    ∧ encryption_active true true "pw" = true
    ∧ (process_attempt true true "pw" 10 100 true).sendReturned = false :=
  ⟨rfl, rfl, rfl⟩

/-! ## Lemmas about `enqueue` -/

theorem enqueue_queue_cases (st : PoolState) (p : PathView) (t : ℚ) :
    (enqueue st p t).queue = st.queue ∨ (enqueue st p t).queue = st.queue ++ [p] := by
  unfold enqueue
  split
  · exact Or.inl rfl
  · split
    · exact Or.inl rfl
    · split
      · exact Or.inl rfl
      · split
        · exact Or.inl rfl
        · split
          · exact Or.inl rfl
          · split
            · exact Or.inl rfl
            · exact Or.inr rfl

theorem enqueue_debounced (st : PoolState) (p : PathView) (t : ℚ) (r : String)
    (hex : p.exists_ = true) (hig : p.ignored = false) (hrel : p.rel = some r)
    (hdeb : t - ((st.lastEvent.lookup r).getD 0) < 1) :
    enqueue st p t = st := by
  simp [enqueue, hex, hig, hrel, hdeb]

theorem enqueue_grew (st : PoolState) (p : PathView) (t : ℚ)
    (h : (enqueue st p t).queue = st.queue ++ [p]) :
    p.exists_ = true ∧ p.ignored = false
    ∧ ∃ r, p.rel = some r ∧ ¬ t - ((st.lastEvent.lookup r).getD 0) < 1
      ∧ (enqueue st p t).lastEvent = (r, t) :: st.lastEvent := by
  have hlen : ∀ q : List PathView, q ≠ q ++ [p] := by
    intro q hq
    have h2 := congrArg List.length hq
    simp at h2
  cases hex : p.exists_ with
  | false =>
    rw [show enqueue st p t = st by simp [enqueue, hex]] at h
    exact absurd h (hlen _)
  | true =>
  cases hig : p.ignored with
  | true =>
    rw [show enqueue st p t = st by simp [enqueue, hex, hig]] at h
    exact absurd h (hlen _)
  | false =>
  rcases hrel : p.rel with _ | r
  · rw [show enqueue st p t = st by simp [enqueue, hex, hig, hrel]] at h
    exact absurd h (hlen _)
  by_cases hdeb : t - ((st.lastEvent.lookup r).getD 0) < 1
  · rw [enqueue_debounced st p t r hex hig hrel hdeb] at h
    exact absurd h (hlen _)
  refine ⟨rfl, rfl, r, rfl, hdeb, ?_⟩
  simp only [enqueue, hex, hig, hrel]
  rw [if_neg (by simp), if_neg (by simp), if_neg hdeb]
  split
  · rfl
  · split
    · rfl
    · rfl

/-- C9 (confirmed): two `enqueue` calls for the same path within the
debounce window (the second call's `now` less than one second past the
first) add at most one entry to the queue, and if the first call did
enqueue the path, the second call is a no-op: it returns at the
debounce guard without touching the state. -/
theorem debounce_single_entry (st : PoolState) (p : PathView) (t₁ t₂ : ℚ)
    (h : t₂ - t₁ < 1) :
    (enqueue (enqueue st p t₁) p t₂).queue.length ≤ st.queue.length + 1
    ∧ ((enqueue st p t₁).queue = st.queue ++ [p] →
        enqueue (enqueue st p t₁) p t₂ = enqueue st p t₁) := by
  have hpart2 : (enqueue st p t₁).queue = st.queue ++ [p] →
      enqueue (enqueue st p t₁) p t₂ = enqueue st p t₁ := by
    intro hgrew
    obtain ⟨hex, hig, r, hrel, _, hle⟩ := enqueue_grew st p t₁ hgrew
    have hlook : (((enqueue st p t₁).lastEvent.lookup r).getD 0) = t₁ := by
      rw [hle]
      simp [List.lookup]
    exact enqueue_debounced _ p t₂ r hex hig hrel (by rw [hlook]; exact h)
  refine ⟨?_, hpart2⟩
  rcases enqueue_queue_cases st p t₁ with h1 | h1
  · rcases enqueue_queue_cases (enqueue st p t₁) p t₂ with h2 | h2 <;>
      rw [h2, h1] <;> simp
  · rw [hpart2 h1, h1]
    simp

/-- C9 witness: two immediate enqueue calls of the same fresh path on
an empty pool leave at most one queue entry. -/
theorem debounce_single_entry_witness :
    ((1 : ℚ) - 1 < 1)
    ∧ (enqueue (enqueue emptyPool samplePath 1) samplePath 1).queue.length
        ≤ emptyPool.queue.length + 1 :=
  ⟨by simp, (debounce_single_entry emptyPool samplePath 1 1 (by simp)).1⟩

end TgCloud
